import Mathlib

/-!
# Verification of the ITK v4 gradient-descent optimization core

This file is a shallow embedding, over `ℚ`-valued parameter vectors, of the
gradient-descent optimization core of the repository: the metric contract
(`itkObjectToObjectMetricBase` / `itkObjectToObjectMetric.h`), the scales
estimator contract (`itkOptimizerParameterScalesEstimator`), the windowed
convergence monitor (`itkWindowConvergenceMonitoringFunction`), and the
optimizer itself (`itkGradientDescentOptimizerv4.h`).

The repository ships only the class headers (declarations, default values and
behaviour documented in doc comments) and test drivers; the `.cxx`/`.hxx`
method bodies are not part of the source tree.  Where a method body is
missing, its model below is marked `Modelled from the spec:` and follows the
specification's description of that method (which in turn matches the header
doc comments and the expectations of the shipped tests).

Machine `double` values are modelled as `ℚ`; IEEE non-finite values, where
behaviourally relevant (the step scale returned by an estimator), are
modelled by `Option ℚ` with `none` standing for a non-finite result.
-/

attribute [local semireducible] Rat.add Rat.mul Rat.inv Rat.sub

namespace itk

/-- Run state of an optimizer.  Modelled from the spec: the run-state
enumeration {Idle, Running, Converged, MaxIterationsReached, UserStopped,
Failed} of the data model; created as Idle on construction. -/
inductive RunState
  | Idle
  | Running
  | Converged
  | MaxIterationsReached
  | UserStopped
  | Failed
deriving DecidableEq

/-- Configuration errors surfaced synchronously by `StartOptimization`.
Modelled from the spec: no metric assigned; scales length mismatched against
the local-parameter count with no estimator to correct it; start requested
while already Running. -/
inductive ConfigError
  | noMetricAssigned
  | scalesSizeMismatch
  | alreadyRunning
deriving DecidableEq

/-- The metric contract (`itkObjectToObjectMetricBase`, abstract in the
source).  Modelled from the spec: a similarity measure exposes its parameter
counts and computes a value and a derivative for the transform parameters it
reaches; `GetValueAndDerivative` is modelled by reading both components. -/
structure ObjectToObjectMetricBase where
  numberOfParameters : Nat
  numberOfLocalParameters : Nat
  hasLocalSupport : Bool
  getValue : List ℚ → ℚ
  getDerivative : List ℚ → List ℚ

/-- The scales estimator contract (`itkOptimizerParameterScalesEstimator`,
abstract in the source).  Modelled from the spec: `EstimateScales` produces
one factor per local parameter, `EstimateStepScale` maps a scaled gradient to
a scalar physical step measure (`none` models an IEEE non-finite result), and
`EstimateMaximumStepSize` is a default maximum physical step. -/
structure OptimizerParameterScalesEstimator where
  estimateScales : List ℚ
  estimateStepScale : List ℚ → Option ℚ
  estimateMaximumStepSize : ℚ

/-- Method `UpdateTransformParameters(derivative, factor)`.  Modelled from the spec:
applies `parameters += factor * derivative` componentwise, the only operation
that mutates the transform parameters. -/
def updateTransformParameters (params derivative : List ℚ) (factor : ℚ) : List ℚ :=
  List.zipWith (fun p d => p + factor * d) params derivative

/-- Method `ModifyGradientByScalesOverSubRange`, totalized over the whole index
range.  Modelled from the spec: `derivative[i] = derivative[i] / scales[i]`
elementwise; the worker-pool split over disjoint sub-ranges is
order-independent, so the sequential elementwise map models its result. -/
def modifyGradientByScales (derivative scales : List ℚ) : List ℚ :=
  List.zipWith (fun d s => d / s) derivative scales

/-- Method `ModifyGradientByLearningRateOverSubRange`, totalized over the whole
index range.  Modelled from the spec: `derivative[i] *= learningRate`
elementwise. -/
def modifyGradientByLearningRate (derivative : List ℚ) (learningRate : ℚ) : List ℚ :=
  derivative.map (fun d => d * learningRate)

/-- Method `AdvanceOneStep`.  Modelled from the spec: apply the scales to the
derivative, then the learning rate, then call the metric's parameter update
with the modified derivative and factor 1.0. -/
def advanceOneStep (params derivative scales : List ℚ) (learningRate : ℚ) : List ℚ :=
  updateTransformParameters params
    (modifyGradientByLearningRate (modifyGradientByScales derivative scales) learningRate) 1

/-- Method `EstimateLearningRate`.  Modelled from the spec: compute the scaled
gradient, query the estimator's step scale, and divide the configured maximum
step size by it; a zero or non-finite (`none`) step scale is a numerical
error and the learning rate is left unchanged from its previous value, with
no exception raised (the function is total). -/
def estimateLearningRate (estimator : OptimizerParameterScalesEstimator)
    (derivative scales : List ℚ) (maximumStepSizeInPhysicalUnits learningRate : ℚ) : ℚ :=
  let scaledGradient := modifyGradientByScales derivative scales
  match estimator.estimateStepScale scaledGradient with
  | none => learningRate
  | some stepScale =>
    if stepScale = 0 then learningRate
    else maximumStepSizeInPhysicalUnits / stepScale

/-- Method `WindowConvergenceMonitoringFunction::AddEnergyValue`.  Modelled from the
spec: append to the trailing window, evicting the oldest entries when over
capacity (FIFO, fixed size). -/
def addEnergyValue (capacity : Nat) (window : List ℚ) (v : ℚ) : List ℚ :=
  let w := window ++ [v]
  if capacity < w.length then w.drop (w.length - capacity) else w

/-- Method `WindowConvergenceMonitoringFunction::GetConvergenceValue`.  Modelled
from the spec: fit a trend over the window (linear least-squares regression
of value against window position) and return the magnitude of its slope;
neutral value 0 while the fit is degenerate (fewer than two samples). -/
def getConvergenceValue (window : List ℚ) : ℚ :=
  let n : ℚ := (window.length : ℚ)
  let xs : List ℚ := (List.range window.length).map (fun i => (i : ℚ))
  let sx := xs.sum
  let sy := window.sum
  let sxy := (List.zipWith (fun x y => x * y) xs window).sum
  let sxx := (xs.map (fun x => x * x)).sum
  let den := n * sxx - sx * sx
  if den = 0 then 0 else |(n * sxy - sx * sy) / den|

/-- Best-state snapshot update (step (b) of the loop).  Modelled from the
spec: if no snapshot exists or the newly observed value is strictly better
(lower) than the snapshot's value, copy the current parameters and value into
the snapshot; otherwise the snapshot is unchanged. -/
def updateBestSnapshot (best : Option (ℚ × List ℚ)) (value : ℚ) (params : List ℚ) :
    Option (ℚ × List ℚ) :=
  match best with
  | none => some (value, params)
  | some (bestValue, bestParams) =>
    if value < bestValue then some (value, params) else some (bestValue, bestParams)

/-- The "scales are identity" test of `StartOptimization` step 3.  Modelled
from the spec: true iff every scale factor lies within the fixed tolerance
0.01 of 1.0. -/
def scalesAreIdentityCheck (scales : List ℚ) : Bool :=
  scales.all (fun x => decide (|x - 1| ≤ 1 / 100))

/-- The state of a `GradientDescentOptimizerv4` object: its configuration
surface, the members declared in `itkGradientDescentOptimizerv4.h`, and the
run-time state of the loop.  The transform parameters (owned by the transform
and reached through the metric) are carried here as the vector the metric
functions read; the best-state snapshot models the pair
`m_CurrentBestValue`/`m_BestParameters` (absent until first captured). -/
structure GradientDescentOptimizerv4 where
  metric : Option ObjectToObjectMetricBase
  scalesEstimator : Option OptimizerParameterScalesEstimator
  learningRate : ℚ
  maximumStepSizeInPhysicalUnits : ℚ
  minimumConvergenceValue : ℚ
  convergenceWindowSize : Nat
  convergenceValue : ℚ
  doEstimateScales : Bool
  doEstimateLearningRateAtEachIteration : Bool
  doEstimateLearningRateOnce : Bool
  returnBestParametersAndValue : Bool
  numberOfIterations : Nat
  currentIteration : Nat
  scales : List ℚ
  scalesAreIdentity : Bool
  parameters : List ℚ
  currentValue : ℚ
  convergenceWindow : List ℚ
  bestSnapshot : Option (ℚ × List ℚ)
  runState : RunState
  stopRequested : Bool

/-- A freshly constructed `GradientDescentOptimizerv4`.  The defaults are the
ones documented in `itkGradientDescentOptimizerv4.h`: learning rate 1.0,
minimum convergence value 1e-8, convergence window size 50, `DoEstimateScales`
true, `DoEstimateLearningRateOnce` true,
`DoEstimateLearningRateAtEachIteration` false; no metric or estimator is
assigned and the run state is Idle (the constructor body is not in the source
tree, so the remaining fields are modelled from the spec's data model). -/
def gradientDescentOptimizerv4New : GradientDescentOptimizerv4 where
  metric := none
  scalesEstimator := none
  learningRate := 1
  maximumStepSizeInPhysicalUnits := 0
  minimumConvergenceValue := 1 / 100000000
  convergenceWindowSize := 50
  convergenceValue := 0
  doEstimateScales := true
  doEstimateLearningRateAtEachIteration := false
  doEstimateLearningRateOnce := true
  returnBestParametersAndValue := false
  numberOfIterations := 100
  currentIteration := 0
  scales := []
  scalesAreIdentity := false
  parameters := []
  currentValue := 0
  convergenceWindow := []
  bestSnapshot := none
  runState := RunState.Idle
  stopRequested := false

/-- The state advance of one iteration of `ResumeOptimization`.  Modelled
from the spec, steps (a)-(f) and the monitor feed of step (g): obtain the
value and derivative from the metric; update the best-state snapshot when
best-tracking is enabled; re-estimate the learning rate when an estimator is
set and (first iteration and "estimate once" enabled) or "estimate every
iteration" enabled; advance one step (scales, learning rate, parameter
update with factor 1.0); feed the monitor, recomputing the stored
convergence value whenever the window is full.  The stopping decisions of
steps (g)-(i) are in `oneIteration` below; a missing metric mid-run cannot
occur after validation and is modelled there as Failed. -/
def oneIterationAdvance (M : ObjectToObjectMetricBase) (s : GradientDescentOptimizerv4) :
    GradientDescentOptimizerv4 :=
  let value := M.getValue s.parameters
  let derivative := M.getDerivative s.parameters
  let best :=
    if s.returnBestParametersAndValue then
      updateBestSnapshot s.bestSnapshot value s.parameters
    else s.bestSnapshot
  let lr :=
    match s.scalesEstimator with
    | some est =>
      if (s.currentIteration = 0 && s.doEstimateLearningRateOnce)
          || s.doEstimateLearningRateAtEachIteration then
        estimateLearningRate est derivative s.scales
          s.maximumStepSizeInPhysicalUnits s.learningRate
      else s.learningRate
    | none => s.learningRate
  let newParams := advanceOneStep s.parameters derivative s.scales lr
  let window := addEnergyValue s.convergenceWindowSize s.convergenceWindow value
  let cv :=
    if window.length = s.convergenceWindowSize then getConvergenceValue window
    else s.convergenceValue
  { s with currentValue := value, bestSnapshot := best, learningRate := lr,
           parameters := newParams, convergenceWindow := window, convergenceValue := cv }

/-- One iteration of `ResumeOptimization`, continued: after the state
advance, transition to Converged when the window is full and the convergence
value is below the configured minimum; otherwise increment the iteration
counter, transitioning to MaxIterationsReached when it reaches the
configured maximum, or to UserStopped when the cooperative stop flag is
set. -/
def oneIteration (s : GradientDescentOptimizerv4) : GradientDescentOptimizerv4 :=
  match s.metric with
  | none => { s with runState := RunState.Failed }
  | some M =>
    let base := oneIterationAdvance M s
    if base.convergenceWindow.length = s.convergenceWindowSize
        ∧ getConvergenceValue base.convergenceWindow < s.minimumConvergenceValue then
      { base with runState := RunState.Converged }
    else if s.numberOfIterations ≤ s.currentIteration + 1 then
      { base with currentIteration := s.currentIteration + 1,
                  runState := RunState.MaxIterationsReached }
    else if s.stopRequested then
      { base with currentIteration := s.currentIteration + 1,
                  runState := RunState.UserStopped }
    else
      { base with currentIteration := s.currentIteration + 1 }

/-- The loop guard of `ResumeOptimization`: the loop body runs while the
optimizer is Running and iterations remain. -/
def loopGuard (s : GradientDescentOptimizerv4) : Bool :=
  decide (s.runState = RunState.Running) && decide (s.currentIteration < s.numberOfIterations)

/-- The iteration loop of `ResumeOptimization`, driven by explicit fuel; the
fuel used by `resumeOptimization` always suffices because every executed
iteration increments the counter or stops the run. -/
def resumeLoop : Nat → GradientDescentOptimizerv4 → GradientDescentOptimizerv4
  | 0, s => s
  | fuel + 1, s => if loopGuard s then resumeLoop fuel (oneIteration s) else s

/-- The write-back on loop exit.  Modelled from the spec: if best-tracking is
enabled, the best-state snapshot's parameters and value are written back into
the transform/metric as the final reported position and value. -/
def applyBestParameters (s : GradientDescentOptimizerv4) : GradientDescentOptimizerv4 :=
  if s.returnBestParametersAndValue then
    match s.bestSnapshot with
    | some (bestValue, bestParams) =>
      { s with parameters := bestParams, currentValue := bestValue }
    | none => s
  else s

/-- Method `ResumeOptimization`: run the loop to completion or interruption, then
write back the best-state snapshot if best-tracking is enabled. -/
def resumeOptimization (s : GradientDescentOptimizerv4) : GradientDescentOptimizerv4 :=
  applyBestParameters (resumeLoop (s.numberOfIterations - s.currentIteration) s)

/-- The per-iteration observations (metric value, parameters at capture time)
made by a run of the loop; entry n is the pair observed - and offered to the
best-state snapshot - during the n-th executed iteration. -/
def observeEntry (s : GradientDescentOptimizerv4) : ℚ × List ℚ :=
  match s.metric with
  | none => (0, s.parameters)
  | some M => (M.getValue s.parameters, s.parameters)

/-- The observation trace of `resumeLoop` with the same fuel. -/
def runTrace : Nat → GradientDescentOptimizerv4 → List (ℚ × List ℚ)
  | 0, _ => []
  | fuel + 1, s =>
    if loopGuard s then observeEntry s :: runTrace fuel (oneIteration s) else []

/-- The observation trace of a full `resumeOptimization` run. -/
def traceOf (s : GradientDescentOptimizerv4) : List (ℚ × List ℚ) :=
  runTrace (s.numberOfIterations - s.currentIteration) s

/-- Steps 1-4 of `StartOptimization`.  Modelled from the spec: fail while
already Running or with no metric assigned; if automatic scale estimation is
enabled and an estimator is assigned, compute the scales now (overriding any
manually set scales), otherwise fail unless the manually-set scales length
equals the metric's local-parameter count; update the "scales are identity"
flag; reset the iteration counter, clear the monitor and the best-state
snapshot, and transition to Running. -/
def startValidate (o : GradientDescentOptimizerv4) :
    Except ConfigError GradientDescentOptimizerv4 :=
  if o.runState = RunState.Running then Except.error ConfigError.alreadyRunning
  else
    match o.metric with
    | none => Except.error ConfigError.noMetricAssigned
    | some M =>
      match (if o.doEstimateScales then o.scalesEstimator else none) with
      | some est =>
        let scales := est.estimateScales
        Except.ok { o with scales := scales,
                           scalesAreIdentity := scalesAreIdentityCheck scales,
                           currentIteration := 0, convergenceWindow := [],
                           bestSnapshot := none, stopRequested := false,
                           runState := RunState.Running }
      | none =>
        if o.scales.length ≠ M.numberOfLocalParameters then
          Except.error ConfigError.scalesSizeMismatch
        else
          Except.ok { o with scalesAreIdentity := scalesAreIdentityCheck o.scales,
                             currentIteration := 0, convergenceWindow := [],
                             bestSnapshot := none, stopRequested := false,
                             runState := RunState.Running }

/-- Method `StartOptimization`: validate and reset state, then delegate to
`ResumeOptimization`; configuration errors are surfaced synchronously to the
caller and no iteration executes. -/
def startOptimization (o : GradientDescentOptimizerv4) :
    Except ConfigError GradientDescentOptimizerv4 :=
  match startValidate o with
  | Except.error e => Except.error e
  | Except.ok s => Except.ok (resumeOptimization s)

/-- The configuration error reported by `StartOptimization`, if any. -/
def startErr (o : GradientDescentOptimizerv4) : Option ConfigError :=
  match startOptimization o with
  | Except.error e => some e
  | Except.ok _ => none

/-- The optimizer object as observed by the caller after `StartOptimization`
returns: the new state on success, the unmodified object when a configuration
error was reported. -/
def stateAfterStart (o : GradientDescentOptimizerv4) : GradientDescentOptimizerv4 :=
  match startOptimization o with
  | Except.error _ => o
  | Except.ok s => s

/-- An image region of the virtual domain: a start index and a size per
dimension (`itkObjectToObjectMetric.h` takes these from the virtual image's
buffered region). -/
structure VirtualRegion where
  start : List Int
  size : List Nat
deriving DecidableEq

/-- The geometry held by the virtual domain image `m_VirtualImage`: spacing,
origin, direction (with its precomputed inverse, as ITK images store), and
the buffered region.  Modelled from the spec's glossary and the doc comments
of `itkObjectToObjectMetric.h`; the `.hxx` bodies are not in the source
tree. -/
structure VirtualDomain where
  spacing : List ℚ
  origin : List ℚ
  direction : List (List ℚ)
  inverseDirection : List (List ℚ)
  region : VirtualRegion

/-- Exception raised by virtual-domain accessors. -/
inductive MetricException
  | virtualRegionUndefined
deriving DecidableEq

/-- An `ObjectToObjectMetric` as far as its virtual domain is concerned:
`virtualDomain = none` models a NULL `m_VirtualImage` (no domain assigned by
the user or a derived class). -/
structure ObjectToObjectMetric where
  dimension : Nat
  virtualDomain : Option VirtualDomain

/-- The identity direction matrix of the given dimension. -/
def identityDirection (n : Nat) : List (List ℚ) :=
  (List.range n).map (fun i => (List.range n).map (fun j => if i = j then (1 : ℚ) else 0))

/-- Method `GetVirtualSpacing`.  Modelled from the spec: returns unit spacing if the
virtual domain is undefined. -/
def getVirtualSpacing (m : ObjectToObjectMetric) : List ℚ :=
  match m.virtualDomain with
  | none => List.replicate m.dimension 1
  | some d => d.spacing

/-- Method `GetVirtualOrigin`.  Modelled from the spec: returns a zero origin if the
virtual domain is undefined. -/
def getVirtualOrigin (m : ObjectToObjectMetric) : List ℚ :=
  match m.virtualDomain with
  | none => List.replicate m.dimension 0
  | some d => d.origin

/-- Method `GetVirtualDirection`.  Modelled from the spec: returns a unit direction
if the virtual domain is undefined. -/
def getVirtualDirection (m : ObjectToObjectMetric) : List (List ℚ) :=
  match m.virtualDomain with
  | none => identityDirection m.dimension
  | some d => d.direction

/-- Method `GetVirtualRegion`.  Modelled from the spec: retrieved from the virtual
image's buffered region; an attempt to retrieve it while the virtual domain
is undefined generates an exception. -/
def getVirtualRegion (m : ObjectToObjectMetric) : Except MetricException VirtualRegion :=
  match m.virtualDomain with
  | none => Except.error MetricException.virtualRegionUndefined
  | some d => Except.ok d.region

/-- Componentwise region membership of an integer index. -/
def regionContainsIndex (r : VirtualRegion) (index : List Int) : Bool :=
  decide (index.length = r.start.length) && decide (r.start.length = r.size.length) &&
    (List.zip index (List.zip r.start r.size)).all
      (fun p => decide (p.2.1 ≤ p.1) && decide (p.1 < p.2.1 + (p.2.2 : Int)))

/-- Matrix-vector product over `ℚ`. -/
def matVec (m : List (List ℚ)) (v : List ℚ) : List ℚ :=
  m.map (fun row => (List.zipWith (fun a b => a * b) row v).sum)

/-- The continuous index of a physical point in a defined virtual domain
(inverse direction applied to the offset from the origin, divided by the
spacing), as ITK's image geometry computes it. -/
def physicalPointToContinuousIndex (d : VirtualDomain) (point : List ℚ) : List ℚ :=
  List.zipWith (fun v s => v / s)
    (matVec d.inverseDirection (List.zipWith (fun p o => p - o) point d.origin))
    d.spacing

/-- Componentwise region membership of a continuous index. -/
def regionContainsContinuousIndex (r : VirtualRegion) (cindex : List ℚ) : Bool :=
  decide (cindex.length = r.start.length) && decide (r.start.length = r.size.length) &&
    (List.zip cindex (List.zip r.start r.size)).all
      (fun p => decide ((p.2.1 : ℚ) ≤ p.1) && decide (p.1 < (p.2.1 : ℚ) + (p.2.2 : ℚ)))

/-- Method `IsInsideVirtualDomain` for a physical point.  Modelled from the spec:
returns true if the virtual domain has not been defined; otherwise checks the
point's continuous index against the virtual region. -/
def isInsideVirtualDomainPoint (m : ObjectToObjectMetric) (point : List ℚ) : Bool :=
  match m.virtualDomain with
  | none => true
  | some d => regionContainsContinuousIndex d.region (physicalPointToContinuousIndex d point)

/-- Method `IsInsideVirtualDomain` for an index.  Modelled from the spec: returns
true if the virtual domain has not been defined; otherwise checks the index
against the virtual region. -/
def isInsideVirtualDomainIndex (m : ObjectToObjectMetric) (index : List Int) : Bool :=
  match m.virtualDomain with
  | none => true
  | some d => regionContainsIndex d.region index

/-- The measure reported by a metric evaluation: either a finite value or the
sentinel indicating that insufficient valid points were found. -/
inductive MeasureReport
  | finiteValue (v : ℚ)
  | insufficientPointsSentinel
deriving DecidableEq

/-- Method `ObjectToObjectMetric::VerifyNumberOfValidPoints`.  Modelled from the
spec: check that the number of valid points is above the minimum (default
zero); if not, return false, assign to the value a sentinel indicating that
insufficient valid points were found during evaluation, and set the
derivative to zero - a report-and-continue condition, not an exception (the
function is total). -/
def verifyNumberOfValidPoints (numberOfValidPoints minimumNumberOfValidPoints : Nat)
    (value : ℚ) (derivative : List ℚ) : Bool × MeasureReport × List ℚ :=
  if minimumNumberOfValidPoints < numberOfValidPoints then
    (true, MeasureReport.finiteValue value, derivative)
  else
    (false, MeasureReport.insufficientPointsSentinel, List.replicate derivative.length 0)

/-! ## Helper lemmas about the loop -/

/-- One iteration never changes the configuration surface, and advances the
iteration counter by at most one. -/
theorem oneIteration_config (s : GradientDescentOptimizerv4) :
    (oneIteration s).metric = s.metric ∧
    (oneIteration s).scalesEstimator = s.scalesEstimator ∧
    (oneIteration s).scales = s.scales ∧
    (oneIteration s).scalesAreIdentity = s.scalesAreIdentity ∧
    (oneIteration s).numberOfIterations = s.numberOfIterations ∧
    (oneIteration s).minimumConvergenceValue = s.minimumConvergenceValue ∧
    (oneIteration s).convergenceWindowSize = s.convergenceWindowSize ∧
    (oneIteration s).returnBestParametersAndValue = s.returnBestParametersAndValue ∧
    (oneIteration s).doEstimateScales = s.doEstimateScales ∧
    (oneIteration s).stopRequested = s.stopRequested ∧
    (oneIteration s).currentIteration ≤ s.currentIteration + 1 ∧
    s.currentIteration ≤ (oneIteration s).currentIteration := by
  cases h : s.metric
  · simp [oneIteration, h]
  · simp only [oneIteration, h]
    split_ifs <;> simp [oneIterationAdvance, h]

/-- The write-back `applyBestParameters` only touches the reported parameters and value. -/
theorem applyBestParameters_config (s : GradientDescentOptimizerv4) :
    (applyBestParameters s).metric = s.metric ∧
    (applyBestParameters s).scales = s.scales ∧
    (applyBestParameters s).scalesAreIdentity = s.scalesAreIdentity ∧
    (applyBestParameters s).numberOfIterations = s.numberOfIterations ∧
    (applyBestParameters s).minimumConvergenceValue = s.minimumConvergenceValue ∧
    (applyBestParameters s).convergenceWindowSize = s.convergenceWindowSize ∧
    (applyBestParameters s).convergenceValue = s.convergenceValue ∧
    (applyBestParameters s).convergenceWindow = s.convergenceWindow ∧
    (applyBestParameters s).currentIteration = s.currentIteration ∧
    (applyBestParameters s).runState = s.runState := by
  unfold applyBestParameters
  split_ifs with h
  · cases hb : s.bestSnapshot with
    | none => simp
    | some p => cases p; simp
  · simp

/-- The loop never changes the configuration surface. -/
theorem resumeLoop_config (fuel : Nat) (s : GradientDescentOptimizerv4) :
    (resumeLoop fuel s).metric = s.metric ∧
    (resumeLoop fuel s).scales = s.scales ∧
    (resumeLoop fuel s).scalesAreIdentity = s.scalesAreIdentity ∧
    (resumeLoop fuel s).numberOfIterations = s.numberOfIterations ∧
    (resumeLoop fuel s).minimumConvergenceValue = s.minimumConvergenceValue ∧
    (resumeLoop fuel s).convergenceWindowSize = s.convergenceWindowSize ∧
    (resumeLoop fuel s).returnBestParametersAndValue = s.returnBestParametersAndValue := by
  induction fuel generalizing s with
  | zero => simp [resumeLoop]
  | succ fuel ih =>
    by_cases h : loopGuard s = true
    · have hcfg := oneIteration_config s
      have hrec := ih (oneIteration s)
      simp only [resumeLoop, h, if_true]
      exact ⟨hrec.1.trans hcfg.1, hrec.2.1.trans hcfg.2.2.1,
        hrec.2.2.1.trans hcfg.2.2.2.1, hrec.2.2.2.1.trans hcfg.2.2.2.2.1,
        hrec.2.2.2.2.1.trans hcfg.2.2.2.2.2.1, hrec.2.2.2.2.2.1.trans hcfg.2.2.2.2.2.2.1,
        hrec.2.2.2.2.2.2.trans hcfg.2.2.2.2.2.2.2.1⟩
    · simp [resumeLoop, h]

/-- The iteration counter never exceeds the configured maximum. -/
theorem resumeLoop_iteration_le (fuel : Nat) (s : GradientDescentOptimizerv4)
    (h : s.currentIteration ≤ s.numberOfIterations) :
    (resumeLoop fuel s).currentIteration ≤ s.numberOfIterations := by
  induction fuel generalizing s with
  | zero => simpa [resumeLoop] using h
  | succ fuel ih =>
    by_cases hg : loopGuard s = true
    · have hlt : s.currentIteration < s.numberOfIterations := by
        have hb := hg
        unfold loopGuard at hb
        rw [Bool.and_eq_true] at hb
        exact of_decide_eq_true hb.2
      have hcfg := oneIteration_config s
      have hle : (oneIteration s).currentIteration ≤ (oneIteration s).numberOfIterations := by
        calc (oneIteration s).currentIteration ≤ s.currentIteration + 1 :=
              hcfg.2.2.2.2.2.2.2.2.2.2.1
          _ ≤ s.numberOfIterations := hlt
          _ = (oneIteration s).numberOfIterations := hcfg.2.2.2.2.1.symm
      have := ih (oneIteration s) (by
        simpa [hcfg.2.2.2.2.1] using hle)
      simpa [resumeLoop, hg, hcfg.2.2.2.2.1] using this
    · simpa [resumeLoop, hg] using h

/-! ## Claim theorems: per-step behaviour -/

/-- C1: in every iteration the optimizer divides each derivative component
elementwise by the corresponding scale factor, then multiplies each component
elementwise by the learning rate, then calls the metric's parameter update
with the modified derivative and factor 1.0; the net update is
`p + learningRate * (derivative / scales)` componentwise, with no sign
negation performed by the optimizer. -/
theorem advanceOneStep_update_rule (p d s : List ℚ) (lr : ℚ) :
    advanceOneStep p d s lr =
      updateTransformParameters p
        (modifyGradientByLearningRate (modifyGradientByScales d s) lr) 1 ∧
    advanceOneStep p d s lr =
      List.zipWith (fun pi q => pi + lr * q) p
        (List.zipWith (fun di si => di / si) d s) := by
  refine ⟨rfl, ?_⟩
  unfold advanceOneStep updateTransformParameters modifyGradientByLearningRate
    modifyGradientByScales
  rw [List.zipWith_map_right]
  congr 1
  funext a b
  ring

/-- C5: `EstimateLearningRate` returns the configured maximum step size in
physical units divided by the estimator's step scale of the scaled gradient;
when the step scale is zero or non-finite (modelled as `none`) the learning
rate is left unchanged from its previous value, and no exception occurs (the
function is total). -/
theorem estimateLearningRate_step_scale (est : OptimizerParameterScalesEstimator)
    (d s : List ℚ) (maxStep lr stepScale : ℚ) :
    (est.estimateStepScale (modifyGradientByScales d s) = none →
      estimateLearningRate est d s maxStep lr = lr) ∧
    (est.estimateStepScale (modifyGradientByScales d s) = some 0 →
      estimateLearningRate est d s maxStep lr = lr) ∧
    (est.estimateStepScale (modifyGradientByScales d s) = some stepScale → stepScale ≠ 0 →
      estimateLearningRate est d s maxStep lr = maxStep / stepScale) := by
  refine ⟨fun h => ?_, fun h => ?_, fun h hne => ?_⟩
  · simp [estimateLearningRate, h]
  · simp [estimateLearningRate, h]
  · simp [estimateLearningRate, h, hne]

/-- A scales estimator whose step scale is the finite value 2. -/
def estimatorFiniteStepScale : OptimizerParameterScalesEstimator where
  estimateScales := [1]
  estimateStepScale := fun _ => some 2
  estimateMaximumStepSize := 1

/-- A scales estimator whose step scale is non-finite (modelled as none). -/
def estimatorNonFiniteStepScale : OptimizerParameterScalesEstimator where
  estimateScales := [1]
  estimateStepScale := fun _ => none
  estimateMaximumStepSize := 1

/-- A scales estimator whose step scale is zero. -/
def estimatorZeroStepScale : OptimizerParameterScalesEstimator where
  estimateScales := [1]
  estimateStepScale := fun _ => some 0
  estimateMaximumStepSize := 1

/-- Witness for C5 at concrete inputs: with maximum step size 6 and previous
learning rate 5, a step scale of 2 yields learning rate 3, while a
non-finite or zero step scale leaves the learning rate at 5. -/
theorem estimateLearningRate_step_scale_witness :
    estimateLearningRate estimatorFiniteStepScale [4] [2] 6 5 = 3 ∧
    estimateLearningRate estimatorNonFiniteStepScale [4] [2] 6 5 = 5 ∧
    estimateLearningRate estimatorZeroStepScale [4] [2] 6 5 = 5 := by
  refine ⟨?_, ?_, ?_⟩
  · have h := (estimateLearningRate_step_scale estimatorFiniteStepScale
      [4] [2] 6 5 2).2.2 rfl (by norm_num)
    rw [h]; norm_num
  · exact (estimateLearningRate_step_scale estimatorNonFiniteStepScale [4] [2] 6 5 0).1 rfl
  · exact (estimateLearningRate_step_scale estimatorZeroStepScale [4] [2] 6 5 0).2.1 rfl

/-- C8: when the number of valid points found during an evaluation is not
above the minimum, the metric signals degeneracy - the returned flag is
false, the measure is the insufficient-points sentinel, and the derivative is
set to zero - instead of raising an exception (the operation is total and
always returns). -/
theorem verifyNumberOfValidPoints_degenerate (n minPts : Nat) (v : ℚ) (d : List ℚ)
    (h : ¬ minPts < n) :
    verifyNumberOfValidPoints n minPts v d =
      (false, MeasureReport.insufficientPointsSentinel, List.replicate d.length 0) ∧
    ∀ x ∈ (verifyNumberOfValidPoints n minPts v d).2.2, x = 0 := by
  refine ⟨by simp [verifyNumberOfValidPoints, h], ?_⟩
  intro x hx
  simp only [verifyNumberOfValidPoints, if_neg h] at hx
  exact List.eq_of_mem_replicate hx

/-- Witness for C8: zero valid points against the default minimum of zero
yields the degenerate report with a zero derivative. -/
theorem verifyNumberOfValidPoints_degenerate_witness :
    ¬ (0 < 0) ∧
    verifyNumberOfValidPoints 0 0 7 [3, 4] =
      (false, MeasureReport.insufficientPointsSentinel, [0, 0]) := by
  refine ⟨by decide, ?_⟩
  rw [(verifyNumberOfValidPoints_degenerate 0 0 7 [3, 4] (by decide)).1]
  rfl

/-- C9: on a metric with no virtual domain defined, `GetVirtualSpacing`
returns unit spacing, `GetVirtualOrigin` a zero origin, `GetVirtualDirection`
a unit direction, `GetVirtualRegion` raises an exception, and
`IsInsideVirtualDomain` returns true for every point and every index. -/
theorem virtualDomain_undefined_defaults (m : ObjectToObjectMetric)
    (h : m.virtualDomain = none) :
    getVirtualSpacing m = List.replicate m.dimension 1 ∧
    getVirtualOrigin m = List.replicate m.dimension 0 ∧
    getVirtualDirection m = identityDirection m.dimension ∧
    getVirtualRegion m = Except.error MetricException.virtualRegionUndefined ∧
    (∀ p : List ℚ, isInsideVirtualDomainPoint m p = true) ∧
    (∀ i : List Int, isInsideVirtualDomainIndex m i = true) := by
  refine ⟨?_, ?_, ?_, ?_, ?_, ?_⟩ <;>
    simp [getVirtualSpacing, getVirtualOrigin, getVirtualDirection, getVirtualRegion,
          isInsideVirtualDomainPoint, isInsideVirtualDomainIndex, h]

/-- A three-dimensional metric on which no virtual domain has been defined. -/
def metricNoDomain : ObjectToObjectMetric where
  dimension := 3
  virtualDomain := none

/-- Witness for C9 at a concrete metric, point and index. -/
theorem virtualDomain_undefined_defaults_witness :
    metricNoDomain.virtualDomain = none ∧
    getVirtualSpacing metricNoDomain = [1, 1, 1] ∧
    getVirtualOrigin metricNoDomain = [0, 0, 0] ∧
    getVirtualRegion metricNoDomain = Except.error MetricException.virtualRegionUndefined ∧
    isInsideVirtualDomainPoint metricNoDomain [5, -3, 7 / 2] = true ∧
    isInsideVirtualDomainIndex metricNoDomain [-4, 0, 9] = true := by
  have h := virtualDomain_undefined_defaults metricNoDomain rfl
  exact ⟨rfl, by rw [h.1]; rfl, by rw [h.2.1]; rfl, h.2.2.2.1, h.2.2.2.2.1 _, h.2.2.2.2.2 _⟩

/-- C10: the defaults of a freshly constructed `GradientDescentOptimizerv4`:
learning rate 1.0, minimum convergence value 1e-8, convergence window size
50, `DoEstimateScales` true, `DoEstimateLearningRateOnce` true, and
`DoEstimateLearningRateAtEachIteration` false, before any configuration
call. -/
theorem gradientDescentOptimizerv4_defaults :
    gradientDescentOptimizerv4New.learningRate = 1 ∧
    gradientDescentOptimizerv4New.minimumConvergenceValue = 1 / 100000000 ∧
    gradientDescentOptimizerv4New.convergenceWindowSize = 50 ∧
    gradientDescentOptimizerv4New.doEstimateScales = true ∧
    gradientDescentOptimizerv4New.doEstimateLearningRateOnce = true ∧
    gradientDescentOptimizerv4New.doEstimateLearningRateAtEachIteration = false :=
  ⟨rfl, rfl, rfl, rfl, rfl, rfl⟩

/-- The state produced by a successful `startValidate`: identity flag
computed from the effective scales, counters and monitor reset, snapshot
cleared, Running. -/
theorem startValidate_ok_fields (o s₀ : GradientDescentOptimizerv4)
    (h : startValidate o = Except.ok s₀) :
    s₀.scalesAreIdentity = scalesAreIdentityCheck s₀.scales ∧
    s₀.currentIteration = 0 ∧
    s₀.numberOfIterations = o.numberOfIterations ∧
    s₀.runState = RunState.Running ∧
    s₀.convergenceWindow = [] ∧
    s₀.bestSnapshot = none ∧
    s₀.minimumConvergenceValue = o.minimumConvergenceValue ∧
    s₀.returnBestParametersAndValue = o.returnBestParametersAndValue ∧
    s₀.metric = o.metric := by
  unfold startValidate at h
  by_cases hr : o.runState = RunState.Running
  · rw [if_pos hr] at h
    exact absurd h (by simp)
  · rw [if_neg hr] at h
    cases hm : o.metric with
    | none =>
      rw [hm] at h
      exact absurd h (by simp)
    | some M =>
      rw [hm] at h
      cases he : (if o.doEstimateScales then o.scalesEstimator else none) with
      | some est =>
        rw [he] at h
        dsimp only at h
        cases h
        simp [hm]
      | none =>
        rw [he] at h
        dsimp only at h
        by_cases hlen : o.scales.length ≠ M.numberOfLocalParameters
        · rw [if_pos hlen] at h
          exact absurd h (by simp)
        · rw [if_neg hlen] at h
          cases h
          simp [hm]

/-- C2: with no scales estimator available and a manually-set scales vector
whose length differs from the metric's local-parameter count,
`StartOptimization` fails with the scales-size configuration error, the run
state remains not-Running, and zero iterations execute (the iteration counter
of a fresh optimizer stays 0). -/
theorem startOptimization_scales_size_mismatch (o : GradientDescentOptimizerv4)
    (M : ObjectToObjectMetricBase)
    (hmetric : o.metric = some M)
    (hest : o.scalesEstimator = none)
    (hlen : o.scales.length ≠ M.numberOfLocalParameters)
    (hstate : o.runState ≠ RunState.Running)
    (hfresh : o.currentIteration = 0) :
    startErr o = some ConfigError.scalesSizeMismatch ∧
    (stateAfterStart o).runState ≠ RunState.Running ∧
    (stateAfterStart o).currentIteration = 0 := by
  have hval : startValidate o = Except.error ConfigError.scalesSizeMismatch := by
    unfold startValidate
    rw [if_neg hstate, hmetric]
    simp [hest, hlen]
  refine ⟨?_, ?_, ?_⟩
  · simp [startErr, startOptimization, hval]
  · simpa [stateAfterStart, startOptimization, hval] using hstate
  · simpa [stateAfterStart, startOptimization, hval] using hfresh

/-- A metric with three local parameters, constant unit value and zero
derivative, as in the shipped base-optimizer test driver. -/
def metricConstTest : ObjectToObjectMetricBase where
  numberOfParameters := 3
  numberOfLocalParameters := 3
  hasLocalSupport := false
  getValue := fun _ => 1
  getDerivative := fun _ => [0, 0, 0]

/-- An optimizer configured with a scales vector one entry too long, as in
the shipped base-optimizer test driver. -/
def optimizerMismatchedScales : GradientDescentOptimizerv4 :=
  { gradientDescentOptimizerv4New with
      metric := some metricConstTest
      numberOfIterations := 2
      parameters := [0, 0, 0]
      scales := [319 / 100, 319 / 100, 319 / 100, 319 / 100] }

/-- Witness for C2: the four-entry scales vector against three local
parameters is rejected and nothing runs. -/
theorem startOptimization_scales_size_mismatch_witness :
    optimizerMismatchedScales.scales.length ≠ metricConstTest.numberOfLocalParameters ∧
    startErr optimizerMismatchedScales = some ConfigError.scalesSizeMismatch ∧
    (stateAfterStart optimizerMismatchedScales).runState ≠ RunState.Running ∧
    (stateAfterStart optimizerMismatchedScales).currentIteration = 0 := by
  have h := startOptimization_scales_size_mismatch optimizerMismatchedScales metricConstTest
    rfl rfl (by decide) (by decide) rfl
  exact ⟨by decide, h.1, h.2.1, h.2.2⟩

/-- The identity-scales flag, unfolded to its specification. -/
theorem scalesAreIdentityCheck_iff (l : List ℚ) :
    scalesAreIdentityCheck l = true ↔ ∀ x ∈ l, |x - 1| ≤ 1 / 100 := by
  simp [scalesAreIdentityCheck, List.all_eq_true]

/-- C3: after a successful `StartOptimization`, `GetScalesAreIdentity` is
true iff every entry of the scales vector lies within the fixed tolerance
0.01 of 1.0 (so any entry outside the tolerance makes it false). -/
theorem getScalesAreIdentity_iff (o : GradientDescentOptimizerv4)
    (h : startErr o = none) :
    ((stateAfterStart o).scalesAreIdentity = true ↔
      ∀ x ∈ (stateAfterStart o).scales, |x - 1| ≤ 1 / 100) := by
  cases hval : startValidate o with
  | error e =>
    exfalso
    simp [startErr, startOptimization, hval] at h
  | ok s₀ =>
    have hfields := startValidate_ok_fields o s₀ hval
    have hb : stateAfterStart o = resumeOptimization s₀ := by
      simp [stateAfterStart, startOptimization, hval]
    rw [hb]
    unfold resumeOptimization
    have ha := applyBestParameters_config
      (resumeLoop (s₀.numberOfIterations - s₀.currentIteration) s₀)
    have hl := resumeLoop_config (s₀.numberOfIterations - s₀.currentIteration) s₀
    rw [ha.2.2.1, ha.2.1, hl.2.2.1, hl.2.1, hfields.1]
    exact scalesAreIdentityCheck_iff s₀.scales

/-- An optimizer whose manually-set scales are all 0.999, within the
identity tolerance, as in the shipped base-optimizer test driver. -/
def optimizerNearIdentityScales : GradientDescentOptimizerv4 :=
  { gradientDescentOptimizerv4New with
      metric := some metricConstTest
      numberOfIterations := 2
      parameters := [0, 0, 0]
      scales := [999 / 1000, 999 / 1000, 999 / 1000] }

/-- Witness for C3: a run with scales 0.999 starts successfully and reports
identity scales. -/
theorem getScalesAreIdentity_iff_witness :
    startErr optimizerNearIdentityScales = none ∧
    (stateAfterStart optimizerNearIdentityScales).scalesAreIdentity = true := by
  refine ⟨by decide, ?_⟩
  exact (getScalesAreIdentity_iff optimizerNearIdentityScales (by decide)).2 (by decide)

/-- C7: for every fresh run, after `StartOptimization` returns the current
iteration count is at most the configured maximum number of iterations. -/
theorem currentIteration_le_numberOfIterations (o : GradientDescentOptimizerv4)
    (hfresh : o.currentIteration = 0) :
    (stateAfterStart o).currentIteration ≤ o.numberOfIterations := by
  cases hval : startValidate o with
  | error e =>
    simp [stateAfterStart, startOptimization, hval, hfresh]
  | ok s₀ =>
    have hfields := startValidate_ok_fields o s₀ hval
    have hb : stateAfterStart o = resumeOptimization s₀ := by
      simp [stateAfterStart, startOptimization, hval]
    rw [hb]
    unfold resumeOptimization
    have ha := applyBestParameters_config
      (resumeLoop (s₀.numberOfIterations - s₀.currentIteration) s₀)
    rw [ha.2.2.2.2.2.2.2.2.1]
    have hle := resumeLoop_iteration_le (s₀.numberOfIterations - s₀.currentIteration) s₀
      (by rw [hfields.2.1]; exact Nat.zero_le _)
    exact le_of_le_of_eq hle hfields.2.2.1

/-- Witness for C7 at a concrete two-iteration run. -/
theorem currentIteration_le_numberOfIterations_witness :
    optimizerNearIdentityScales.currentIteration = 0 ∧
    (stateAfterStart optimizerNearIdentityScales).currentIteration ≤
      optimizerNearIdentityScales.numberOfIterations :=
  ⟨rfl, currentIteration_le_numberOfIterations optimizerNearIdentityScales rfl⟩

/-! ## Best-state snapshot tracking (claim C4) -/

/-- Later observations that are not strictly better never displace the
snapshot. -/
theorem foldl_updateBestSnapshot_noUpdate (x : ℚ × List ℚ) (l : List (ℚ × List ℚ))
    (h : ∀ y ∈ l, ¬ y.1 < x.1) :
    List.foldl (fun b e => updateBestSnapshot b e.1 e.2) (some x) l = some x := by
  induction l with
  | nil => rfl
  | cons a l ih =>
    have ha : ¬ a.1 < x.1 := h a (by simp)
    have hx : updateBestSnapshot (some x) a.1 a.2 = some x := by
      cases x
      simp [updateBestSnapshot, ha]
    rw [List.foldl_cons, hx]
    exact ih (fun y hy => h y (by simp [hy]))

/-- Folding the snapshot update over a list whose distinguished element is
strictly below everything else (and below the incoming snapshot, if any)
selects exactly that element. -/
theorem foldl_updateBestSnapshot_min (pre : List (ℚ × List ℚ)) (post : List (ℚ × List ℚ))
    (x : ℚ × List ℚ) (b : Option (ℚ × List ℚ))
    (hb : ∀ y, b = some y → x.1 < y.1)
    (hpre : ∀ y ∈ pre, x.1 < y.1)
    (hpost : ∀ y ∈ post, x.1 < y.1) :
    List.foldl (fun b e => updateBestSnapshot b e.1 e.2) b (pre ++ x :: post) = some x := by
  induction pre generalizing b with
  | nil =>
    rw [List.nil_append, List.foldl_cons]
    have hx : updateBestSnapshot b x.1 x.2 = some x := by
      cases b with
      | none => cases x; rfl
      | some y =>
        have hy := hb y rfl
        cases y
        cases x
        simp [updateBestSnapshot, hy]
    rw [hx]
    exact foldl_updateBestSnapshot_noUpdate x post (fun y hy => lt_asymm (hpost y hy))
  | cons a pre ih =>
    rw [List.cons_append, List.foldl_cons]
    apply ih
    case hpre => exact fun y hy => hpre y (List.mem_cons_of_mem a hy)
    intro y hy
    have hax : x.1 < a.1 := hpre a (by simp)
    cases b with
    | none =>
      simp only [updateBestSnapshot] at hy
      cases hy
      exact hax
    | some z =>
      obtain ⟨zv, zp⟩ := z
      simp only [updateBestSnapshot] at hy
      by_cases hc : a.1 < zv
      · rw [if_pos hc] at hy
        cases hy
        exact hax
      · rw [if_neg hc] at hy
        cases hy
        exact hb (zv, zp) rfl

/-- Folding the snapshot update from an empty snapshot over a list with a
strict unique minimum at index m yields exactly the entry at m. -/
theorem foldl_updateBestSnapshot_argmin (ts : List (ℚ × List ℚ)) (m : Nat)
    (hm : m < ts.length)
    (hmin : ∀ j, j < ts.length → j ≠ m → (ts.getD m (0, [])).1 < (ts.getD j (0, [])).1) :
    List.foldl (fun b e => updateBestSnapshot b e.1 e.2) none ts =
      some (ts.getD m (0, [])) := by
  have hx : ts.getD m (0, []) = ts[m] := List.getD_eq_getElem ts (0, []) hm
  have hmin' : ∀ j, (hj : j < ts.length) → j ≠ m → (ts[m]).1 < (ts[j]).1 := by
    intro j hj hne
    have := hmin j hj hne
    rwa [hx, List.getD_eq_getElem ts (0, []) hj] at this
  have hdecomp : ts = ts.take m ++ ts[m] :: ts.drop (m + 1) := by
    conv_lhs => rw [← List.take_append_drop m ts]
    congr 1
    exact List.drop_eq_getElem_cons hm
  have hpre : ∀ y ∈ ts.take m, (ts[m]).1 < y.1 := by
    intro y hy
    obtain ⟨i, hi, hgi⟩ := List.mem_iff_getElem.mp hy
    have hib : i < ts.length := by
      have hlen := hi
      rw [List.length_take] at hlen
      omega
    have him : i < m := by
      have hlen := hi
      rw [List.length_take] at hlen
      omega
    rw [List.getElem_take] at hgi
    rw [← hgi]
    exact hmin' i hib (by omega)
  have hpost : ∀ y ∈ ts.drop (m + 1), (ts[m]).1 < y.1 := by
    intro y hy
    obtain ⟨i, hi, hgi⟩ := List.mem_iff_getElem.mp hy
    have hib : m + 1 + i < ts.length := by
      have hlen := hi
      rw [List.length_drop] at hlen
      omega
    rw [List.getElem_drop] at hgi
    rw [← hgi]
    exact hmin' (m + 1 + i) hib (by omega)
  have hgoal :
      List.foldl (fun b e => updateBestSnapshot b e.1 e.2) none
        (ts.take m ++ ts[m] :: ts.drop (m + 1)) = some ts[m] :=
    foldl_updateBestSnapshot_min _ _ _ none (by intro y hy; cases hy) hpre hpost
  rw [← hdecomp] at hgoal
  rw [hx]
  exact hgoal

/-- Decidable check that a value sequence is non-monotonic with turning
point m: it strictly decreases up to index m and strictly increases from
index m on. -/
def strictlyDecThenIncCheck (vs : List ℚ) (m : Nat) : Bool :=
  (decide (m < vs.length) &&
    (List.range m).all (fun i => decide (vs.getD (i + 1) 0 < vs.getD i 0))) &&
  (List.range vs.length).all (fun i =>
    if m ≤ i ∧ i + 1 < vs.length then decide (vs.getD i 0 < vs.getD (i + 1) 0) else true)

/-- Unfolding of `strictlyDecThenIncCheck` into its three properties. -/
theorem strictlyDecThenIncCheck_spec (vs : List ℚ) (m : Nat)
    (h : strictlyDecThenIncCheck vs m = true) :
    m < vs.length ∧
    (∀ i, i < m → vs.getD (i + 1) 0 < vs.getD i 0) ∧
    (∀ i, m ≤ i → i + 1 < vs.length → vs.getD i 0 < vs.getD (i + 1) 0) := by
  unfold strictlyDecThenIncCheck at h
  rw [Bool.and_eq_true, Bool.and_eq_true] at h
  obtain ⟨⟨h1, h2⟩, h3⟩ := h
  refine ⟨of_decide_eq_true h1, ?_, ?_⟩
  · intro i hi
    exact of_decide_eq_true (List.all_eq_true.mp h2 i (List.mem_range.mpr hi))
  · intro i hmi hi1
    have hiLen : i < vs.length := by omega
    have hall := List.all_eq_true.mp h3 i (List.mem_range.mpr hiLen)
    rw [if_pos ⟨hmi, hi1⟩] at hall
    exact of_decide_eq_true hall

/-- A sequence that strictly decreases up to m and strictly increases from m
attains its strict unique minimum at m. -/
theorem strictlyDecThenInc_min (vs : List ℚ) (m : Nat)
    (_hm : m < vs.length)
    (hdec : ∀ i, i < m → vs.getD (i + 1) 0 < vs.getD i 0)
    (hinc : ∀ i, m ≤ i → i + 1 < vs.length → vs.getD i 0 < vs.getD (i + 1) 0) :
    ∀ j, j < vs.length → j ≠ m → vs.getD m 0 < vs.getD j 0 := by
  have hdown : ∀ k, k ≤ m → ∀ j, j < k → vs.getD k 0 < vs.getD j 0 := by
    intro k
    induction k with
    | zero => intro _ j hj; omega
    | succ k ih =>
      intro hk j hj
      have hstep : vs.getD (k + 1) 0 < vs.getD k 0 := hdec k (by omega)
      rcases Nat.lt_succ_iff_lt_or_eq.mp hj with hlt | heq
      · exact hstep.trans (ih (by omega) j hlt)
      · rw [heq]; exact hstep
  have hup : ∀ k, k < vs.length → m < k → vs.getD m 0 < vs.getD k 0 := by
    intro k
    induction k with
    | zero => intro _ h; omega
    | succ k ih =>
      intro hk hmk
      rcases Nat.lt_succ_iff_lt_or_eq.mp hmk with hlt | heq
      · exact (ih (by omega) hlt).trans (hinc k (by omega) hk)
      · rw [← heq]; exact hinc m le_rfl (by omega)
  intro j hj hne
  rcases Nat.lt_or_ge j m with hlt | hge
  · exact hdown m le_rfl j hlt
  · exact hup j hj (by omega)

/-- The best-state snapshot maintained by the loop is exactly the fold of the
snapshot update over the loop's observation trace. -/
theorem resumeLoop_bestSnapshot (fuel : Nat) (s : GradientDescentOptimizerv4)
    (M : ObjectToObjectMetricBase) (hM : s.metric = some M)
    (hrb : s.returnBestParametersAndValue = true) :
    (resumeLoop fuel s).bestSnapshot =
      List.foldl (fun b e => updateBestSnapshot b e.1 e.2) s.bestSnapshot
        (runTrace fuel s) := by
  induction fuel generalizing s M with
  | zero => rfl
  | succ fuel ih =>
    by_cases hg : loopGuard s = true
    · have hone : (oneIteration s).bestSnapshot =
          updateBestSnapshot s.bestSnapshot (observeEntry s).1 (observeEntry s).2 := by
        simp only [oneIteration, hM]
        split_ifs <;> simp [oneIterationAdvance, observeEntry, hM, hrb]
      have hM' : (oneIteration s).metric = some M := by
        rw [(oneIteration_config s).1, hM]
      have hrb' : (oneIteration s).returnBestParametersAndValue = true := by
        rw [(oneIteration_config s).2.2.2.2.2.2.2.1, hrb]
      rw [resumeLoop, runTrace, if_pos hg, if_pos hg, List.foldl_cons,
        ih (oneIteration s) M hM' hrb', hone]
    · rw [resumeLoop, runTrace, if_neg hg, if_neg hg]
      rfl

/-- C4: with best-tracking enabled and a run whose observed value sequence is
non-monotonic (strictly decreases to a turning point m, then strictly
increases), the final reported position and value after the loop exits are
the parameters and value captured at iteration m - the minimum-value
iteration - and the snapshot itself is updated only when a newly observed
value is strictly better than the stored one. -/
theorem returnBestParameters_final_position (s : GradientDescentOptimizerv4)
    (M : ObjectToObjectMetricBase) (m : Nat)
    (hM : s.metric = some M)
    (hrb : s.returnBestParametersAndValue = true)
    (hbest0 : s.bestSnapshot = none)
    (hshape : strictlyDecThenIncCheck ((traceOf s).map Prod.fst) m = true) :
    (resumeOptimization s).parameters = ((traceOf s).getD m (0, [])).2 ∧
    (resumeOptimization s).currentValue = ((traceOf s).getD m (0, [])).1 ∧
    (∀ bv bp v p, ¬ v < bv →
      updateBestSnapshot (some (bv, bp)) v p = some (bv, bp)) := by
  obtain ⟨hm, hdec, hinc⟩ := strictlyDecThenIncCheck_spec _ _ hshape
  rw [List.length_map] at hm
  have hminv := strictlyDecThenInc_min ((traceOf s).map Prod.fst) m
    (by rwa [List.length_map]) hdec hinc
  have hpair : ∀ j, j < (traceOf s).length →
      ((traceOf s).map Prod.fst).getD j 0 = ((traceOf s).getD j (0, [])).1 := by
    intro j hj
    rw [List.getD_eq_getElem _ _ (by rwa [List.length_map]),
      List.getD_eq_getElem _ _ hj, List.getElem_map]
  have hmin : ∀ j, j < (traceOf s).length → j ≠ m →
      ((traceOf s).getD m (0, [])).1 < ((traceOf s).getD j (0, [])).1 := by
    intro j hj hne
    have h := hminv j (by rwa [List.length_map]) hne
    rwa [hpair m hm, hpair j hj] at h
  have hfold := foldl_updateBestSnapshot_argmin (traceOf s) m hm hmin
  have hbest : (resumeLoop (s.numberOfIterations - s.currentIteration) s).bestSnapshot =
      some ((traceOf s).getD m (0, [])) := by
    rw [resumeLoop_bestSnapshot _ s M hM hrb, hbest0]
    exact hfold
  have hLrb :
      (resumeLoop (s.numberOfIterations - s.currentIteration) s).returnBestParametersAndValue
        = true := by
    rw [(resumeLoop_config _ s).2.2.2.2.2.2]
    exact hrb
  unfold resumeOptimization applyBestParameters
  rw [hLrb, if_pos rfl, hbest]
  exact ⟨rfl, rfl, fun bv bp v p hno => by simp [updateBestSnapshot, hno]⟩

/-- A one-parameter metric with value `(p - 2)^2` and a constant derivative
that drives the parameter upward by one per iteration. -/
def metricParabolaTest : ObjectToObjectMetricBase where
  numberOfParameters := 1
  numberOfLocalParameters := 1
  hasLocalSupport := false
  getValue := fun p => (p.getD 0 0 - 2) * (p.getD 0 0 - 2)
  getDerivative := fun _ => [1]

/-- A running optimizer with best-tracking enabled whose observed values over
five iterations are 4, 1, 0, 1, 4: strictly decreasing to iteration 2 and
strictly increasing afterwards. -/
def optimizerBestTracking : GradientDescentOptimizerv4 :=
  { gradientDescentOptimizerv4New with
      metric := some metricParabolaTest
      returnBestParametersAndValue := true
      numberOfIterations := 5
      parameters := [0]
      scales := [1]
      runState := RunState.Running }

/-- Witness for C4: the non-monotonic run reports the parameters captured
at the minimum-value iteration, [2], not the last iteration's result [5]. -/
theorem returnBestParameters_final_position_witness :
    strictlyDecThenIncCheck ((traceOf optimizerBestTracking).map Prod.fst) 2 = true ∧
    (resumeOptimization optimizerBestTracking).parameters =
      ((traceOf optimizerBestTracking).getD 2 (0, [])).2 ∧
    (resumeOptimization optimizerBestTracking).parameters = [2] ∧
    (resumeLoop (optimizerBestTracking.numberOfIterations -
        optimizerBestTracking.currentIteration) optimizerBestTracking).parameters = [5] ∧
    (resumeOptimization optimizerBestTracking).parameters ≠ [5] := by
  have h := returnBestParameters_final_position optimizerBestTracking metricParabolaTest 2
    rfl rfl rfl (by decide)
  exact ⟨by decide, h.1, by decide, by decide, by decide⟩

/-! ## Convergence behaviour (claim C6) -/

/-- A stopped optimizer is left unchanged by the loop. -/
theorem resumeLoop_of_not_running (fuel : Nat) (s : GradientDescentOptimizerv4)
    (h : s.runState ≠ RunState.Running) :
    resumeLoop fuel s = s := by
  cases fuel with
  | zero => rfl
  | succ fuel =>
    rw [resumeLoop, if_neg]
    unfold loopGuard
    simp [h]

/-- The convergence value is a slope magnitude, hence never negative. -/
theorem getConvergenceValue_nonneg (window : List ℚ) :
    0 ≤ getConvergenceValue window := by
  simp only [getConvergenceValue]
  split_ifs
  · exact le_refl 0
  · exact abs_nonneg _

/-- The stored convergence value after the state advance: recomputed from
the new window when it is full, unchanged otherwise. -/
theorem oneIterationAdvance_convergenceValue (M : ObjectToObjectMetricBase)
    (s : GradientDescentOptimizerv4) :
    (oneIterationAdvance M s).convergenceValue =
      if (oneIterationAdvance M s).convergenceWindow.length = s.convergenceWindowSize
      then getConvergenceValue ((oneIterationAdvance M s).convergenceWindow)
      else s.convergenceValue := rfl

/-- If a single iteration from a Running state with iterations remaining
exits with Converged, then the exit happened through the convergence test:
the window is full, the stored convergence value is the computed slope
magnitude of that window and is below the configured minimum, and the
iteration counter was not advanced past the maximum. -/
theorem oneIteration_converged (s : GradientDescentOptimizerv4)
    (hguard : loopGuard s = true)
    (hc : (oneIteration s).runState = RunState.Converged) :
    (oneIteration s).convergenceWindow.length = s.convergenceWindowSize ∧
    (oneIteration s).convergenceValue =
      getConvergenceValue ((oneIteration s).convergenceWindow) ∧
    (oneIteration s).convergenceValue < s.minimumConvergenceValue ∧
    (oneIteration s).currentIteration < s.numberOfIterations := by
  have hlt : s.currentIteration < s.numberOfIterations := by
    unfold loopGuard at hguard
    rw [Bool.and_eq_true] at hguard
    exact of_decide_eq_true hguard.2
  cases hM : s.metric with
  | none =>
    simp [oneIteration, hM] at hc
  | some M =>
    simp only [oneIteration, hM] at hc ⊢
    split_ifs at hc ⊢ with h1 h2 h3
    · obtain ⟨hwin, hcv⟩ := h1
      refine ⟨hwin, ?_, ?_, hlt⟩
      · show (oneIterationAdvance M s).convergenceValue =
          getConvergenceValue ((oneIterationAdvance M s).convergenceWindow)
        rw [oneIterationAdvance_convergenceValue, if_pos hwin]
      · show (oneIterationAdvance M s).convergenceValue < s.minimumConvergenceValue
        rw [oneIterationAdvance_convergenceValue, if_pos hwin]
        exact hcv
    all_goals simp at hc
    exfalso
    have hrun : s.runState = RunState.Running := by
      unfold loopGuard at hguard
      rw [Bool.and_eq_true] at hguard
      exact of_decide_eq_true hguard.1
    have he : (oneIterationAdvance M s).runState = s.runState := rfl
    rw [he, hrun] at hc
    cases hc

/-- If the loop exits with Converged, the exit happened through the
convergence test at an iteration where the window was full and the computed
convergence value was below the configured minimum, and before the iteration
counter reached the configured maximum. -/
theorem resumeLoop_converged (fuel : Nat) (s : GradientDescentOptimizerv4)
    (h : s.runState = RunState.Running)
    (hc : (resumeLoop fuel s).runState = RunState.Converged) :
    (resumeLoop fuel s).convergenceWindow.length = s.convergenceWindowSize ∧
    (resumeLoop fuel s).convergenceValue =
      getConvergenceValue ((resumeLoop fuel s).convergenceWindow) ∧
    (resumeLoop fuel s).convergenceValue < s.minimumConvergenceValue ∧
    (resumeLoop fuel s).currentIteration < s.numberOfIterations := by
  induction fuel generalizing s with
  | zero =>
    rw [resumeLoop] at hc
    rw [hc] at h
    cases h
  | succ fuel ih =>
    by_cases hg : loopGuard s = true
    · rw [resumeLoop, if_pos hg] at hc ⊢
      rcases oneIteration_config s with
        ⟨_, _, _, _, hni, hmc, hws, _, _, _, _, _⟩
      by_cases hr : (oneIteration s).runState = RunState.Running
      · have hrec := ih (oneIteration s) hr hc
        rw [hws] at hrec
        rw [hmc] at hrec
        rw [hni] at hrec
        exact hrec
      · have hstop := resumeLoop_of_not_running fuel (oneIteration s) hr
        rw [hstop] at hc ⊢
        exact oneIteration_converged s hg hc
    · rw [resumeLoop, if_neg hg] at hc
      rw [hc] at h
      cases h

/-- C6 (amended): the optimizer transitions to Converged exactly through the
convergence test - at an iteration where the window is full and the computed
convergence value is below the configured minimum, before the iteration
counter reaches the maximum; and since the convergence value is a
nonnegative slope magnitude, with the minimum convergence value configured
to 0 the test can never fire, so no run (monotonically improving or
otherwise) ends in Converged - it runs until MaxIterationsReached or another
stop condition instead. -/
theorem converged_requires_value_below_minimum (s : GradientDescentOptimizerv4)
    (h : s.runState = RunState.Running) :
    ((resumeOptimization s).runState = RunState.Converged →
      (resumeOptimization s).convergenceWindow.length = s.convergenceWindowSize ∧
      (resumeOptimization s).convergenceValue =
        getConvergenceValue ((resumeOptimization s).convergenceWindow) ∧
      (resumeOptimization s).convergenceValue < s.minimumConvergenceValue ∧
      (resumeOptimization s).currentIteration < s.numberOfIterations) ∧
    (s.minimumConvergenceValue = 0 →
      (resumeOptimization s).runState ≠ RunState.Converged) := by
  rcases applyBestParameters_config
    (resumeLoop (s.numberOfIterations - s.currentIteration) s) with
    ⟨_, _, _, _, _, _, hcv, hcw, hci, hrs⟩
  constructor
  · intro hc
    unfold resumeOptimization at hc ⊢
    rw [hrs] at hc
    rw [hcv, hcw, hci]
    exact resumeLoop_converged _ s h hc
  · intro hmin hc
    unfold resumeOptimization at hc
    rw [hrs] at hc
    have hfacts := resumeLoop_converged _ s h hc
    have hnn := getConvergenceValue_nonneg
      ((resumeLoop (s.numberOfIterations - s.currentIteration) s).convergenceWindow)
    rw [← hfacts.2.1] at hnn
    rw [hmin] at hfacts
    exact absurd hfacts.2.2.1 (not_lt.mpr hnn)

/-- A one-parameter metric whose value is the parameter itself and whose
derivative drives the parameter down by one per iteration, producing a
strictly monotonically improving (decreasing) value sequence forever. -/
def metricLinearDescent : ObjectToObjectMetricBase where
  numberOfParameters := 1
  numberOfLocalParameters := 1
  hasLocalSupport := false
  getValue := fun p => p.getD 0 0
  getDerivative := fun _ => [-1]

/-- A running optimizer fed a strictly monotonically improving sequence
(0, -1, -2, -3, -4, -5) with minimum convergence value 0, convergence window
size 3 (filled from the third iteration on) and maximum iteration count 6. -/
def optimizerMonotoneRun : GradientDescentOptimizerv4 :=
  { gradientDescentOptimizerv4New with
      metric := some metricLinearDescent
      minimumConvergenceValue := 0
      convergenceWindowSize := 3
      numberOfIterations := 6
      parameters := [0]
      scales := [1]
      runState := RunState.Running }

/-- Counterexample to C6 as stated: this run feeds the monitor a strictly
monotonically improving sequence long enough to fill the convergence window
(the check with turning point 5 states strict decrease throughout the
six observed values), the minimum convergence value is 0, yet the optimizer
never transitions to Converged: it runs all six iterations and stops with
MaxIterationsReached. -/
theorem converged_min_zero_counterexample :
    optimizerMonotoneRun.minimumConvergenceValue = 0 ∧
    optimizerMonotoneRun.runState = RunState.Running ∧
    ((traceOf optimizerMonotoneRun).map Prod.fst).length = 6 ∧
    strictlyDecThenIncCheck ((traceOf optimizerMonotoneRun).map Prod.fst) 5 = true ∧
    (resumeOptimization optimizerMonotoneRun).convergenceWindow.length =
      optimizerMonotoneRun.convergenceWindowSize ∧
    (resumeOptimization optimizerMonotoneRun).runState = RunState.MaxIterationsReached ∧
    (resumeOptimization optimizerMonotoneRun).runState ≠ RunState.Converged ∧
    (resumeOptimization optimizerMonotoneRun).currentIteration =
      optimizerMonotoneRun.numberOfIterations := by
  refine ⟨rfl, rfl, by decide, by decide, by decide, by decide, by decide, by decide⟩

/-- Witness for the amended C6 at the same concrete run: with the minimum
convergence value 0 the run does not end in Converged. -/
theorem converged_requires_value_below_minimum_witness :
    optimizerMonotoneRun.runState = RunState.Running ∧
    optimizerMonotoneRun.minimumConvergenceValue = 0 ∧
    (resumeOptimization optimizerMonotoneRun).runState ≠ RunState.Converged :=
  ⟨rfl, rfl,
    (converged_requires_value_below_minimum optimizerMonotoneRun rfl).2 rfl⟩

end itk
